import Mathlib

/-!
Verification of the aggregation core of the design-token extraction scripts:
the hex-color validator, the context priority selector
(`build_structure_prompt` in `src/ai/prompts/structure_analysis.py`), and the
token merge engine (`merge_section_tokens`, `merge_with_defaults`,
`validate_tokens` in `src/ai/extract-design-tokens.py`).

The Python dictionaries built by the merge engine have a fixed key skeleton
(lines 248-282 of `extract-design-tokens.py`); they are embedded as Lean
structures with `Option` fields for slots that may still be unset (`None`).
`clean_nones` (lines 392-400) removes `None` leaves before the defaults
merge; in the typed embedding an unset slot is `none` and the defaults
merge reads it with `Option.getD`, which is exactly the composite
behaviour of `clean_nones` followed by `deep_merge` on the fixed skeleton.
-/

/-! ## Hex color validation (`validate_hex_color`, line 138) -/

/-- A character matched by the regex class `[0-9A-Fa-f]`. -/
def isPyHexDigit (c : Char) : Bool :=
  ('0' ≤ c && c ≤ '9') || ('A' ≤ c && c ≤ 'F') || ('a' ≤ c && c ≤ 'f')

/-- Semantics of Python `re.match(r'^#[0-9A-Fa-f]{6}$', s)` on the character
list of `s`: the match is anchored at position 0, consumes `#` and six hex
digits, and the `$` anchor then accepts either the end of the string or a
position immediately before a newline that ends the string. -/
def pyMatchHex (cs : List Char) : Bool :=
  match cs with
  | [] => false
  | c :: rest =>
    c == '#' &&
    ((rest.take 6).length == 6 && (rest.take 6).all isPyHexDigit) &&
    (rest.drop 6 == ([] : List Char) || rest.drop 6 == ['\n'])

/-- Embeds `validate_hex_color` (line 138): `bool(re.match(r'^#[0-9A-Fa-f]{6}$', color))`. -/
def validate_hex_color (color : String) : Bool :=
  pyMatchHex color.data

/-- Modelled from the spec's words (claims C1/C2): `s` matches
`^#[0-9A-Fa-f]{6}$` *exactly* — a leading `#`, exactly six hex digits,
and nothing else (`$` read as strict end-of-string). -/
def matches_hex_exactly (s : String) : Bool :=
  match s.data with
  | [] => false
  | c :: rest => c == '#' && rest.length == 6 && rest.all isPyHexDigit

/-! ## Substring containment (Python's `in` operator on `str`) -/

/-- Predicate `hasInfix pat l` is true iff `pat` occurs as a contiguous sublist of `l`
(the semantics of Python's `pat in l` for strings). -/
def hasInfix (pat : List Char) (l : List Char) : Bool :=
  match l with
  | [] => pat.isEmpty
  | c :: rest => pat.isPrefixOf (c :: rest) || hasInfix pat rest

/-- Function `strContainsSub s pat` embeds Python's `pat in s` on strings. -/
def strContainsSub (s pat : String) : Bool :=
  hasInfix pat.data s.data

/-! ## Context Priority Selector (`build_structure_prompt`, lines 515-592 of
`src/ai/prompts/structure_analysis.py`) -/

/-- The four mutually exclusive context tiers of `build_structure_prompt`. -/
inductive ContextTier
  | hierarchyDimensions  -- `build_hierarchy_prompt(dimensions, hierarchy)`
  | dimensionsOnly       -- `STRUCTURE_PROMPT_WITH_DIMENSIONS`
  | markup               -- `STRUCTURE_PROMPT_WITH_CONTEXT`
  | screenshotOnly       -- `STRUCTURE_PROMPT`
  deriving DecidableEq, Repr

/-- Embeds the branch structure of `build_structure_prompt` (lines 545-592).
Each Boolean is the Python truthiness of the corresponding optional argument
(`hierarchy`, `dimensions`, `html_content`, `css_content`); the result names
which prompt template family the returned string is rendered from.  The
`content_summary` argument is orthogonal (appended to every tier) and does
not influence the selection, so it is not a parameter here. -/
def build_structure_prompt_tier
    (hierarchy dimensions html_content css_content : Bool) : ContextTier :=
  if hierarchy && dimensions then .hierarchyDimensions
  else if dimensions then .dimensionsOnly
  else if html_content && css_content then .markup
  else .screenshotOnly

/-! ## Data model: Section Extraction Results

A section result is the JSON fragment returned per section
(`extract_section_tokens`), in the looser per-section shape read by
`merge_section_tokens` (lines 233-402).  A JSON key that is absent is
`none`; color/size values are strings (the only shape the code can accept:
`validate_hex_color` and the `!= 'null'` comparisons operate on `str`).
A JSON `null` value is falsy in Python exactly like an absent key along
every read path of the merge loop, so it is also modelled as `none`. -/

/-- The flat color fields of a section result that the fixed mapping table
(lines 300-306) and the primary-inference rule (lines 321-323) read. -/
structure SectionColors where
  background : Option String
  text : Option String
  heading : Option String
  accent : Option String
  border : Option String
  deriving DecidableEq, Repr

/-- The typography fields of a section result read by lines 326-359. -/
structure SectionTypography where
  fontFamily : Option String
  headingSize : Option String
  bodySize : Option String
  /-- `typo['fontWeight']` when it is a dict: its `.items()` in insertion
  order.  Weight values are JSON numbers, embedded as `Int`. -/
  fontWeight : Option (List (String × Int))
  deriving DecidableEq, Repr

/-- One Section Extraction Result as consumed by `merge_section_tokens`. -/
structure SectionResult where
  /-- The `_section` key (read with `tokens.get('_section', 'unknown')`). -/
  sectionName : Option String
  /-- The `error` key; `'error' in tokens` is key presence, i.e. `isSome`. -/
  error : Option String
  colors : Option SectionColors
  typography : Option SectionTypography
  /-- `tokens['spacing']` when it is a dict: its `.items()` in insertion order. -/
  spacing : Option (List (String × String))
  borderRadius : Option String
  shadow : Option String
  notes : Option (List String)
  deriving DecidableEq, Repr

/-! ## Data model: the merged accumulator

`merged` as initialized at lines 248-282.  The key skeleton is fixed; the
only keys ever added are `'4xl'`/`'base'` in `fontSize`, `'16'`/`'4'` in
`spacing`, and `'md'` in `borderRadius`/`shadows`, each held here as an
`Option` slot.  `lineHeight` is never written and stays empty. -/

structure MergedColors where
  primary : Option String
  secondary : Option String
  accent : Option String
  background : Option String
  surface : Option String
  border : Option String
  /-- the nested `text` dict -/
  textPrimary : Option String
  textSecondary : Option String
  textMuted : Option String
  deriving DecidableEq, Repr

structure MergedWeights where
  normal : Option Int
  medium : Option Int
  semibold : Option Int
  bold : Option Int
  deriving DecidableEq, Repr

structure MergedTypo where
  ffHeading : Option String
  ffBody : Option String
  /-- `fontSize['4xl']` when present -/
  fs4xl : Option String
  /-- `fontSize['base']` when present -/
  fsBase : Option String
  weights : MergedWeights
  deriving DecidableEq, Repr

structure Merged where
  colors : MergedColors
  typo : MergedTypo
  /-- `spacing['16']` when present -/
  spacing16 : Option String
  /-- `spacing['4']` when present -/
  spacing4 : Option String
  /-- `borderRadius['md']` when present -/
  radiusMd : Option String
  /-- `shadows['md']` when present -/
  shadowMd : Option String
  notes : List String
  sections : List String
  sectionCount : Nat
  deriving DecidableEq, Repr

/-- The running `(fontSize['4xl'], fontSize['base'], seen_sizes)` state; the
`seen` component embeds the `seen_sizes` set (line 285) by membership. -/
structure SizeState where
  fs4xl : Option String
  fsBase : Option String
  seen : List String
  deriving DecidableEq, Repr

/-! ## The merge step -/

/-- The write `if <dest slot> is None: <write candidate>` — the first-wins
discipline used for every canonical slot. -/
def fillSlot {α : Type} (old cand : Option α) : Option α :=
  match old with
  | some v => some v
  | none => cand

/-- Candidate produced by the mapping-table guard (lines 308-311):
`src_key in colors and colors[src_key] and colors[src_key] != 'null'`
followed by `validate_hex_color(value)`. -/
def candColor (o : Option String) : Option String :=
  match o with
  | some v => if v ≠ "" && v ≠ "null" && validate_hex_color v then some v else none
  | none => none

/-- Candidate of the primary-inference rule (lines 321-323):
`'accent' in colors`, `colors['accent']` truthy, `validate_hex_color` —
note there is no `!= 'null'` comparison on this path. -/
def candPrimary (o : Option String) : Option String :=
  match o with
  | some v => if v ≠ "" && validate_hex_color v then some v else none
  | none => none

/-- The color merge of one successful result (lines 296-323).  The source
loop writes the five mapped destination slots and then the inferred
`primary` slot in sequence; the writes touch pairwise distinct slots and no
guard reads a slot another write touches, so the net effect is this
slot-wise record update. -/
def colorsAfter (r : SectionResult) (c : MergedColors) : MergedColors :=
  match r.colors with
  | none => c
  | some sc =>
    { primary := fillSlot c.primary (candPrimary sc.accent)
      secondary := c.secondary
      accent := fillSlot c.accent (candColor sc.accent)
      background := fillSlot c.background (candColor sc.background)
      surface := c.surface
      border := fillSlot c.border (candColor sc.border)
      textPrimary := fillSlot c.textPrimary (candColor sc.text)
      textSecondary := fillSlot c.textSecondary (candColor sc.heading)
      textMuted := c.textMuted }

/-- The font-family merge (lines 330-336): one flat string fills both
`heading` and `body` wherever still unset. -/
def ffAfter (r : SectionResult) (hb : Option String × Option String) :
    Option String × Option String :=
  match r.typography with
  | none => hb
  | some t =>
    match t.fontFamily with
    | none => hb
    | some f =>
      if f ≠ "" && f ≠ "null" then (fillSlot hb.1 (some f), fillSlot hb.2 (some f))
      else hb

/-- Processing of one of the two size keys (lines 339-350).  `isHeading` is
the value of `'heading' in key.lower()`: true for `'headingSize'`, false
for `'bodySize'`. -/
def processSizeKey (isHeading : Bool) (o : Option String) (σ : SizeState) : SizeState :=
  match o with
  | none => σ
  | some s =>
    if s ≠ "" && s ≠ "null" then
      if s ∈ σ.seen then σ
      else
        if isHeading then
          { fs4xl := fillSlot σ.fs4xl (some s), fsBase := σ.fsBase, seen := s :: σ.seen }
        else
          { fs4xl := σ.fs4xl, fsBase := fillSlot σ.fsBase (some s), seen := s :: σ.seen }
    else σ

/-- The font-size merge of one successful result: the loop
`for key in ['headingSize', 'bodySize']` processes `headingSize` first. -/
def sizesAfter (r : SectionResult) (σ : SizeState) : SizeState :=
  match r.typography with
  | none => σ
  | some t => processSizeKey false t.bodySize (processSizeKey true t.headingSize σ)

/-- One iteration of the weight loop (lines 353-359): value truthy (a zero
JSON number is falsy; the `!= 'null'` comparison of a number to a string is
always true), key lowered, slot filled if still unset.  Membership of
`target_key` in the merged `fontWeight` dict is exactly being one of the
four canonical names, which are always present in the skeleton. -/
def weightStep (w : MergedWeights) (kv : String × Int) : MergedWeights :=
  if kv.2 ≠ 0 then
    if kv.1.toLower = "normal" then { w with normal := fillSlot w.normal (some kv.2) }
    else if kv.1.toLower = "medium" then { w with medium := fillSlot w.medium (some kv.2) }
    else if kv.1.toLower = "semibold" then { w with semibold := fillSlot w.semibold (some kv.2) }
    else if kv.1.toLower = "bold" then { w with bold := fillSlot w.bold (some kv.2) }
    else w
  else w

/-- The font-weight merge of one successful result. -/
def weightsAfter (r : SectionResult) (w : MergedWeights) : MergedWeights :=
  match r.typography with
  | none => w
  | some t =>
    match t.fontWeight with
    | none => w
    | some entries => entries.foldl weightStep w

/-- One iteration of the spacing loop (lines 365-373). -/
def spacingStep (sp : Option String × Option String) (kv : String × String) :
    Option String × Option String :=
  if kv.2 ≠ "" && kv.2 ≠ "null" then
    if strContainsSub kv.1.toLower "section" || strContainsSub kv.1.toLower "container" then
      (fillSlot sp.1 (some kv.2), sp.2)
    else if strContainsSub kv.1.toLower "gap" then
      (sp.1, fillSlot sp.2 (some kv.2))
    else sp
  else sp

/-- The spacing merge of one successful result (lines 362-373). -/
def spacingAfter (r : SectionResult) (sp : Option String × Option String) :
    Option String × Option String :=
  match r.spacing with
  | none => sp
  | some entries => entries.foldl spacingStep sp

/-- The border-radius merge (lines 376-379). -/
def radiusAfter (r : SectionResult) (o : Option String) : Option String :=
  match r.borderRadius with
  | none => o
  | some v => if v ≠ "" && v ≠ "null" then fillSlot o (some v) else o

/-- The shadow merge (lines 382-385); the source key is the singular `shadow`. -/
def shadowAfter (r : SectionResult) (o : Option String) : Option String :=
  match r.shadow with
  | none => o
  | some v => if v ≠ "" && v ≠ "null" then fillSlot o (some v) else o

/-- The notes contributed by one successful result (lines 388-389). -/
def notesOf (r : SectionResult) : List String :=
  match r.notes with
  | none => []
  | some l => l

/-- The failure note appended for a result carrying an `error` key (line 289). -/
def failNoteOf (r : SectionResult) : String :=
  "Section " ++ r.sectionName.getD "unknown" ++ " failed: " ++ r.error.getD ""

/-- One iteration of the main merge loop (lines 287-389) on the state
`(merged, seen_sizes)`.  A result with an `error` key only appends a
failure note; a successful result records its section identifier and feeds
every category merge.  The category merges of the source loop run in
sequence but read and write pairwise disjoint parts of `merged` (only the
size merge also uses `seen_sizes`), so the step is assembled componentwise. -/
def stepResult (st : Merged × List String) (r : SectionResult) : Merged × List String :=
  match r.error with
  | some _ => ({ st.1 with notes := st.1.notes ++ [failNoteOf r] }, st.2)
  | none =>
    let m := st.1
    let σ := sizesAfter r ⟨m.typo.fs4xl, m.typo.fsBase, st.2⟩
    let hb := ffAfter r (m.typo.ffHeading, m.typo.ffBody)
    let sp := spacingAfter r (m.spacing16, m.spacing4)
    ({ colors := colorsAfter r m.colors
       typo :=
        { ffHeading := hb.1
          ffBody := hb.2
          fs4xl := σ.fs4xl
          fsBase := σ.fsBase
          weights := weightsAfter r m.typo.weights }
       spacing16 := sp.1
       spacing4 := sp.2
       radiusMd := radiusAfter r m.radiusMd
       shadowMd := shadowAfter r m.shadowMd
       notes := m.notes ++ notesOf r
       sections := m.sections ++ [r.sectionName.getD "unknown"]
       sectionCount := m.sectionCount }, σ.seen)

/-- The initial `merged` dict (lines 248-282): every slot unset,
`_sectionCount` already `len(section_tokens)`. -/
def initMerged (n : Nat) : Merged :=
  { colors := ⟨none, none, none, none, none, none, none, none, none⟩
    typo := ⟨none, none, none, none, ⟨none, none, none, none⟩⟩
    spacing16 := none
    spacing4 := none
    radiusMd := none
    shadowMd := none
    notes := []
    sections := []
    sectionCount := n }

/-- The full loop of `merge_section_tokens` including the final
`seen_sizes` set. -/
def mergeState (results : List SectionResult) : Merged × List String :=
  results.foldl stepResult (initMerged results.length, [])

/-- Embeds `merge_section_tokens` (lines 233-402).  `clean_nones` is the
identity on this typed representation (an unset slot is already `none`,
and the fixed sub-dicts `text`, `fontFamily`, … survive cleaning as
(possibly empty) dicts that the defaults merge then recurses into). -/
def merge_section_tokens (results : List SectionResult) : Merged :=
  (mergeState results).1

/-! ## The canonical Token Document and `DEFAULT_TOKENS` (lines 67-130) -/

structure TextColorsDoc where
  primary : String
  secondary : String
  muted : String
  deriving DecidableEq, Repr

structure ColorsDoc where
  primary : String
  secondary : String
  accent : String
  background : String
  surface : String
  text : TextColorsDoc
  border : String
  deriving DecidableEq, Repr

/-- The fixed `fontSize` buckets; field `xl2`/`xl3`/`xl4` spell the JSON
keys `2xl`/`3xl`/`4xl`. -/
structure FontSizeDoc where
  xs : String
  sm : String
  base : String
  lg : String
  xl : String
  xl2 : String
  xl3 : String
  xl4 : String
  deriving DecidableEq, Repr

structure FontWeightDoc where
  normal : Int
  medium : Int
  semibold : Int
  bold : Int
  deriving DecidableEq, Repr

/-- The `lineHeight` values are JSON decimal numbers; they are only ever the
three default literals, spelled here as decimal strings. -/
structure LineHeightDoc where
  tight : String
  normal : String
  relaxed : String
  deriving DecidableEq, Repr

structure FontFamilyDoc where
  heading : String
  body : String
  deriving DecidableEq, Repr

structure TypographyDoc where
  fontFamily : FontFamilyDoc
  fontSize : FontSizeDoc
  fontWeight : FontWeightDoc
  lineHeight : LineHeightDoc
  deriving DecidableEq, Repr

/-- The fixed numeric spacing scale; field `sK` spells JSON key `"K"`. -/
structure SpacingDoc where
  s1 : String
  s2 : String
  s3 : String
  s4 : String
  s6 : String
  s8 : String
  s12 : String
  s16 : String
  deriving DecidableEq, Repr

structure RadiusDoc where
  sm : String
  md : String
  lg : String
  full : String
  deriving DecidableEq, Repr

structure ShadowsDoc where
  sm : String
  md : String
  lg : String
  deriving DecidableEq, Repr

/-- A complete Token Document (the shape of `DEFAULT_TOKENS` and of every
defaults-merged output). -/
structure TokenDoc where
  colors : ColorsDoc
  typography : TypographyDoc
  spacing : SpacingDoc
  borderRadius : RadiusDoc
  shadows : ShadowsDoc
  notes : List String
  deriving DecidableEq, Repr

/-- Embeds `DEFAULT_TOKENS` (lines 67-130). -/
def DEFAULT_TOKENS : TokenDoc :=
  { colors :=
      { primary := "#2563eb"
        secondary := "#64748b"
        accent := "#f59e0b"
        background := "#ffffff"
        surface := "#f8fafc"
        text := { primary := "#0f172a", secondary := "#475569", muted := "#94a3b8" }
        border := "#e2e8f0" }
    typography :=
      { fontFamily := { heading := "Inter, sans-serif", body := "Inter, sans-serif" }
        fontSize :=
          { xs := "12px", sm := "14px", base := "16px", lg := "18px"
            xl := "20px", xl2 := "24px", xl3 := "30px", xl4 := "36px" }
        fontWeight := { normal := 400, medium := 500, semibold := 600, bold := 700 }
        lineHeight := { tight := "1.25", normal := "1.5", relaxed := "1.75" } }
    spacing :=
      { s1 := "4px", s2 := "8px", s3 := "12px", s4 := "16px"
        s6 := "24px", s8 := "32px", s12 := "48px", s16 := "64px" }
    borderRadius := { sm := "4px", md := "8px", lg := "16px", full := "9999px" }
    shadows :=
      { sm := "0 1px 2px rgba(0,0,0,0.05)"
        md := "0 4px 6px rgba(0,0,0,0.1)"
        lg := "0 10px 15px rgba(0,0,0,0.1)" }
    notes := ["Using default tokens - extraction failed or was not performed"] }

/-- The section-mode output of `merge_with_defaults(merged)`: the deep-merge
result carries the bookkeeping keys `_sections`/`_sectionCount` of the
override verbatim (they are absent from the defaults base). -/
structure SectionFinal where
  doc : TokenDoc
  sections : List String
  sectionCount : Nat
  deriving DecidableEq, Repr

/-- Embeds `merge_with_defaults` (lines 162-173) applied to a
`merge_section_tokens` result: `deep_merge(DEFAULT_TOKENS.copy(), merged)`
recurses through the fixed dict skeleton; a slot the section merge set
overrides the default scalar, a slot that `clean_nones` removed is filled
from `DEFAULT_TOKENS`, and the always-present `notes` list of the override
replaces the default notes list wholesale (lists are not dicts, so the
scalar-override branch applies). -/
def merge_with_defaults (m : Merged) : SectionFinal :=
  { doc :=
      { colors :=
          { primary := m.colors.primary.getD DEFAULT_TOKENS.colors.primary
            secondary := m.colors.secondary.getD DEFAULT_TOKENS.colors.secondary
            accent := m.colors.accent.getD DEFAULT_TOKENS.colors.accent
            background := m.colors.background.getD DEFAULT_TOKENS.colors.background
            surface := m.colors.surface.getD DEFAULT_TOKENS.colors.surface
            text :=
              { primary := m.colors.textPrimary.getD DEFAULT_TOKENS.colors.text.primary
                secondary := m.colors.textSecondary.getD DEFAULT_TOKENS.colors.text.secondary
                muted := m.colors.textMuted.getD DEFAULT_TOKENS.colors.text.muted }
            border := m.colors.border.getD DEFAULT_TOKENS.colors.border }
        typography :=
          { fontFamily :=
              { heading := m.typo.ffHeading.getD DEFAULT_TOKENS.typography.fontFamily.heading
                body := m.typo.ffBody.getD DEFAULT_TOKENS.typography.fontFamily.body }
            fontSize :=
              { xs := DEFAULT_TOKENS.typography.fontSize.xs
                sm := DEFAULT_TOKENS.typography.fontSize.sm
                base := m.typo.fsBase.getD DEFAULT_TOKENS.typography.fontSize.base
                lg := DEFAULT_TOKENS.typography.fontSize.lg
                xl := DEFAULT_TOKENS.typography.fontSize.xl
                xl2 := DEFAULT_TOKENS.typography.fontSize.xl2
                xl3 := DEFAULT_TOKENS.typography.fontSize.xl3
                xl4 := m.typo.fs4xl.getD DEFAULT_TOKENS.typography.fontSize.xl4 }
            fontWeight :=
              { normal := m.typo.weights.normal.getD DEFAULT_TOKENS.typography.fontWeight.normal
                medium := m.typo.weights.medium.getD DEFAULT_TOKENS.typography.fontWeight.medium
                semibold := m.typo.weights.semibold.getD DEFAULT_TOKENS.typography.fontWeight.semibold
                bold := m.typo.weights.bold.getD DEFAULT_TOKENS.typography.fontWeight.bold }
            lineHeight := DEFAULT_TOKENS.typography.lineHeight }
        spacing :=
          { s1 := DEFAULT_TOKENS.spacing.s1
            s2 := DEFAULT_TOKENS.spacing.s2
            s3 := DEFAULT_TOKENS.spacing.s3
            s4 := m.spacing4.getD DEFAULT_TOKENS.spacing.s4
            s6 := DEFAULT_TOKENS.spacing.s6
            s8 := DEFAULT_TOKENS.spacing.s8
            s12 := DEFAULT_TOKENS.spacing.s12
            s16 := m.spacing16.getD DEFAULT_TOKENS.spacing.s16 }
        borderRadius :=
          { sm := DEFAULT_TOKENS.borderRadius.sm
            md := m.radiusMd.getD DEFAULT_TOKENS.borderRadius.md
            lg := DEFAULT_TOKENS.borderRadius.lg
            full := DEFAULT_TOKENS.borderRadius.full }
        shadows :=
          { sm := DEFAULT_TOKENS.shadows.sm
            md := m.shadowMd.getD DEFAULT_TOKENS.shadows.md
            lg := DEFAULT_TOKENS.shadows.lg }
        notes := m.notes }
    sections := m.sections
    sectionCount := m.sectionCount }

/-! ## Whole-document (non-sectioned) extraction path

`extract_tokens` (lines 481-596) parses the model response, runs
`validate_tokens` over it, appends any failures to its `notes`, and deep
merges it against `DEFAULT_TOKENS`.  Only `colors` and `notes` are decided
by code under verification here (the other categories are deep-merged with
the same per-key rule and are independent of them), so the response is
embedded by those parts. -/

structure WholeTextColors where
  primary : Option String
  secondary : Option String
  muted : Option String
  deriving DecidableEq, Repr

structure WholeColors where
  primary : Option String
  secondary : Option String
  accent : Option String
  background : Option String
  surface : Option String
  border : Option String
  text : Option WholeTextColors
  deriving DecidableEq, Repr

/-- A whole-document extraction result (the parsed model response). -/
structure WholeDocTokens where
  colors : Option WholeColors
  notes : Option (List String)
  deriving DecidableEq, Repr

/-- One check of `validate_tokens`: if the key is present and its value
fails `validate_hex_color`, emit `"Invalid hex color: colors.<path> = <v>"`. -/
def colorErrorAt (path : String) (o : Option String) : List String :=
  match o with
  | none => []
  | some v =>
    if validate_hex_color v then []
    else ["Invalid hex color: colors." ++ path ++ " = " ++ v]

/-- Embeds `validate_tokens` (lines 143-159): returns
`(is_valid, errors)` with the checks in source order. -/
def validate_tokens (t : WholeDocTokens) : Bool × List String :=
  let errors :=
    match t.colors with
    | none => []
    | some c =>
      colorErrorAt "primary" c.primary ++
      colorErrorAt "secondary" c.secondary ++
      colorErrorAt "accent" c.accent ++
      colorErrorAt "background" c.background ++
      colorErrorAt "surface" c.surface ++
      colorErrorAt "border" c.border ++
      (match c.text with
       | none => []
       | some tc =>
         colorErrorAt "text.primary" tc.primary ++
         colorErrorAt "text.secondary" tc.secondary ++
         colorErrorAt "text.muted" tc.muted)
  (errors.isEmpty, errors)

/-- The `colors` part of `deep_merge(DEFAULT_TOKENS.copy(), tokens)` for a
whole-document result: per-key override of defaults, recursing into `text`. -/
def wholeColorsMerged (co : Option WholeColors) : ColorsDoc :=
  match co with
  | none => DEFAULT_TOKENS.colors
  | some c =>
    { primary := c.primary.getD DEFAULT_TOKENS.colors.primary
      secondary := c.secondary.getD DEFAULT_TOKENS.colors.secondary
      accent := c.accent.getD DEFAULT_TOKENS.colors.accent
      background := c.background.getD DEFAULT_TOKENS.colors.background
      surface := c.surface.getD DEFAULT_TOKENS.colors.surface
      text :=
        match c.text with
        | none => DEFAULT_TOKENS.colors.text
        | some tc =>
          { primary := tc.primary.getD DEFAULT_TOKENS.colors.text.primary
            secondary := tc.secondary.getD DEFAULT_TOKENS.colors.text.secondary
            muted := tc.muted.getD DEFAULT_TOKENS.colors.text.muted }
      border := c.border.getD DEFAULT_TOKENS.colors.border }

/-- Embeds the whole-document response handling of `extract_tokens`
(lines 567-578): run `validate_tokens`; when invalid, set
`tokens['notes'] = tokens.get('notes', []) + errors`; then
`merge_with_defaults(tokens)` (a `notes` key present in the override
replaces the default notes list). -/
def finalize_whole_doc (t : WholeDocTokens) : TokenDoc :=
  let ve := validate_tokens t
  let notes : Option (List String) :=
    if ve.1 then t.notes else some (t.notes.getD [] ++ ve.2)
  { colors := wholeColorsMerged t.colors
    typography := DEFAULT_TOKENS.typography
    spacing := DEFAULT_TOKENS.spacing
    borderRadius := DEFAULT_TOKENS.borderRadius
    shadows := DEFAULT_TOKENS.shadows
    notes := notes.getD DEFAULT_TOKENS.notes }

/-! ## Slot and path accessors -/

/-- The nine canonical color slots of the Token Document. -/
inductive ColorPath
  | primary | secondary | accent | background | surface | border
  | textPrimary | textSecondary | textMuted
  deriving DecidableEq, Repr

/-- Read a canonical color slot of the merged accumulator. -/
def mergedColorAt (c : MergedColors) : ColorPath → Option String
  | .primary => c.primary
  | .secondary => c.secondary
  | .accent => c.accent
  | .background => c.background
  | .surface => c.surface
  | .border => c.border
  | .textPrimary => c.textPrimary
  | .textSecondary => c.textSecondary
  | .textMuted => c.textMuted

/-- Read a canonical color slot of a complete Token Document. -/
def docColorAt (c : ColorsDoc) : ColorPath → String
  | .primary => c.primary
  | .secondary => c.secondary
  | .accent => c.accent
  | .background => c.background
  | .surface => c.surface
  | .border => c.border
  | .textPrimary => c.text.primary
  | .textSecondary => c.text.secondary
  | .textMuted => c.text.muted

/-- Read a color slot of a whole-document extraction result (navigating the
optional `colors` and `text` dicts). -/
def wholeColorAt (t : WholeDocTokens) (p : ColorPath) : Option String :=
  match t.colors with
  | none => none
  | some c =>
    match p with
    | .primary => c.primary
    | .secondary => c.secondary
    | .accent => c.accent
    | .background => c.background
    | .surface => c.surface
    | .border => c.border
    | .textPrimary => c.text.bind (·.primary)
    | .textSecondary => c.text.bind (·.secondary)
    | .textMuted => c.text.bind (·.muted)

/-- The dotted path name `validate_tokens` prints for a color slot. -/
def colorPathName : ColorPath → String
  | .primary => "primary"
  | .secondary => "secondary"
  | .accent => "accent"
  | .background => "background"
  | .surface => "surface"
  | .border => "border"
  | .textPrimary => "text.primary"
  | .textSecondary => "text.secondary"
  | .textMuted => "text.muted"

/-- The 17 string-valued canonical slots the section merge can write. -/
inductive StrSlot
  | cPrimary | cSecondary | cAccent | cBackground | cSurface | cBorder
  | cTextPrimary | cTextSecondary | cTextMuted
  | ffHeading | ffBody | fs4xl | fsBase | sp16 | sp4 | radMd | shMd
  deriving DecidableEq, Repr

/-- Read a writable string slot of the merged accumulator. -/
def mergedStrAt (m : Merged) : StrSlot → Option String
  | .cPrimary => m.colors.primary
  | .cSecondary => m.colors.secondary
  | .cAccent => m.colors.accent
  | .cBackground => m.colors.background
  | .cSurface => m.colors.surface
  | .cBorder => m.colors.border
  | .cTextPrimary => m.colors.textPrimary
  | .cTextSecondary => m.colors.textSecondary
  | .cTextMuted => m.colors.textMuted
  | .ffHeading => m.typo.ffHeading
  | .ffBody => m.typo.ffBody
  | .fs4xl => m.typo.fs4xl
  | .fsBase => m.typo.fsBase
  | .sp16 => m.spacing16
  | .sp4 => m.spacing4
  | .radMd => m.radiusMd
  | .shMd => m.shadowMd

/-- Read the corresponding field of a complete Token Document. -/
def docStrAt (d : TokenDoc) : StrSlot → String
  | .cPrimary => d.colors.primary
  | .cSecondary => d.colors.secondary
  | .cAccent => d.colors.accent
  | .cBackground => d.colors.background
  | .cSurface => d.colors.surface
  | .cBorder => d.colors.border
  | .cTextPrimary => d.colors.text.primary
  | .cTextSecondary => d.colors.text.secondary
  | .cTextMuted => d.colors.text.muted
  | .ffHeading => d.typography.fontFamily.heading
  | .ffBody => d.typography.fontFamily.body
  | .fs4xl => d.typography.fontSize.xl4
  | .fsBase => d.typography.fontSize.base
  | .sp16 => d.spacing.s16
  | .sp4 => d.spacing.s4
  | .radMd => d.borderRadius.md
  | .shMd => d.shadows.md

/-! ## Specification-side reference functions (claims C9 and C10) -/

/-- The at-most-one size event a size key of a result generates: present,
truthy, and not the string `'null'`.  The Boolean labels heading (`true`)
versus body (`false`). -/
def sizeEventOf (isHeading : Bool) (o : Option String) : List (Bool × String) :=
  match o with
  | none => []
  | some s => if s ≠ "" && s ≠ "null" then [(isHeading, s)] else []

/-- The labelled size events of one result, in processing order:
nothing for a failed result, else `headingSize` before `bodySize`. -/
def sizeEvents (r : SectionResult) : List (Bool × String) :=
  match r.error with
  | some _ => []
  | none =>
    match r.typography with
    | none => []
    | some t => sizeEventOf true t.headingSize ++ sizeEventOf false t.bodySize

/-- Modelled from the spec's words (claim C9): one global deduplication set
keyed by the raw size string and shared between both labellings; a
heading-labelled size fills bucket `4xl` only and only while unset; a
body-labelled size fills bucket `base` only and only while unset; a size
string already seen under either labelling is never reprocessed. -/
def specFillSizes (σ : SizeState) : List (Bool × String) → SizeState
  | [] => σ
  | (isH, s) :: es =>
    if s ∈ σ.seen then specFillSizes σ es
    else if isH then
      specFillSizes ⟨fillSlot σ.fs4xl (some s), σ.fsBase, s :: σ.seen⟩ es
    else
      specFillSizes ⟨σ.fs4xl, fillSlot σ.fsBase (some s), s :: σ.seen⟩ es

/-- The spacing entries of one result that carry a usable value (present
mapping, value truthy and not `'null'`), in iteration order; nothing for a
failed result. -/
def spacingEvents (r : SectionResult) : List (String × String) :=
  match r.error with
  | some _ => []
  | none =>
    match r.spacing with
    | none => []
    | some entries => entries.filter (fun kv => kv.2 ≠ "" && kv.2 ≠ "null")

/-- Where a free-form spacing key is routed. -/
inductive SpacingClass
  | scale16 | scale4 | ignored
  deriving DecidableEq, Repr

/-- Modelled from the spec's words (claim C10): a key containing
`"section"` or `"container"` (case-insensitively) routes to scale key `16`;
otherwise a key containing `"gap"` routes to scale key `4`; every other key
is ignored. -/
def classify_spacing_key (k : String) : SpacingClass :=
  if strContainsSub k.toLower "section" || strContainsSub k.toLower "container" then .scale16
  else if strContainsSub k.toLower "gap" then .scale4
  else .ignored

/-- Modelled from the spec's words (claim C10): route each spacing entry by
its key's class, filling each of the two scale slots at its first
occurrence only. -/
def specMergeSpacing (sp : Option String × Option String) :
    List (String × String) → Option String × Option String
  | [] => sp
  | (k, v) :: es =>
    match classify_spacing_key k with
    | .scale16 => specMergeSpacing (fillSlot sp.1 (some v), sp.2) es
    | .scale4 => specMergeSpacing (sp.1, fillSlot sp.2 (some v)) es
    | .ignored => specMergeSpacing sp es

/-- All color slots that are set carry validated values. -/
def colorsValid (c : MergedColors) : Prop :=
  ∀ p v, mergedColorAt c p = some v → validate_hex_color v = true

/-- The `(fontSize['4xl'], fontSize['base'], seen_sizes)` view of the merge
state. -/
def sizesStateOf (st : Merged × List String) : SizeState :=
  ⟨st.1.typo.fs4xl, st.1.typo.fsBase, st.2⟩

/-- The `(spacing['16'], spacing['4'])` view of the merge state. -/
def spacingPairOf (st : Merged × List String) : Option String × Option String :=
  (st.1.spacing16, st.1.spacing4)

/-- A result supplies a valid background when it is not failed and its flat
`background` field holds a truthy, non-`'null'` string that passes
`validate_hex_color`. -/
def suppliesValidBackground (r : SectionResult) (v : String) : Prop :=
  r.error = none ∧ ∃ sc, r.colors = some sc ∧ sc.background = some v ∧
    (v ≠ "" && v ≠ "null" && validate_hex_color v) = true

/-- A merged slot the section phase set is kept, an unset slot falls back
to the default. -/
def strSlotRespected (m : Merged) (f : SectionFinal) (slot : StrSlot) : Prop :=
  (∀ v, mergedStrAt m slot = some v → docStrAt f.doc slot = v) ∧
  (mergedStrAt m slot = none → docStrAt f.doc slot = docStrAt DEFAULT_TOKENS slot)

/-- Same discipline for the four integer font-weight slots. -/
def weightsRespected (m : Merged) (f : SectionFinal) : Prop :=
  ((∀ i, m.typo.weights.normal = some i → f.doc.typography.fontWeight.normal = i) ∧
   (m.typo.weights.normal = none →
      f.doc.typography.fontWeight.normal = DEFAULT_TOKENS.typography.fontWeight.normal)) ∧
  ((∀ i, m.typo.weights.medium = some i → f.doc.typography.fontWeight.medium = i) ∧
   (m.typo.weights.medium = none →
      f.doc.typography.fontWeight.medium = DEFAULT_TOKENS.typography.fontWeight.medium)) ∧
  ((∀ i, m.typo.weights.semibold = some i → f.doc.typography.fontWeight.semibold = i) ∧
   (m.typo.weights.semibold = none →
      f.doc.typography.fontWeight.semibold = DEFAULT_TOKENS.typography.fontWeight.semibold)) ∧
  ((∀ i, m.typo.weights.bold = some i → f.doc.typography.fontWeight.bold = i) ∧
   (m.typo.weights.bold = none →
      f.doc.typography.fontWeight.bold = DEFAULT_TOKENS.typography.fontWeight.bold))

/-- The fields no input can ever touch equal the Defaults Document's values. -/
def untouchedFieldsDefault (f : SectionFinal) : Prop :=
  f.doc.typography.fontSize.xs = DEFAULT_TOKENS.typography.fontSize.xs ∧
  f.doc.typography.fontSize.sm = DEFAULT_TOKENS.typography.fontSize.sm ∧
  f.doc.typography.fontSize.lg = DEFAULT_TOKENS.typography.fontSize.lg ∧
  f.doc.typography.fontSize.xl = DEFAULT_TOKENS.typography.fontSize.xl ∧
  f.doc.typography.fontSize.xl2 = DEFAULT_TOKENS.typography.fontSize.xl2 ∧
  f.doc.typography.fontSize.xl3 = DEFAULT_TOKENS.typography.fontSize.xl3 ∧
  f.doc.typography.lineHeight = DEFAULT_TOKENS.typography.lineHeight ∧
  f.doc.spacing.s1 = DEFAULT_TOKENS.spacing.s1 ∧
  f.doc.spacing.s2 = DEFAULT_TOKENS.spacing.s2 ∧
  f.doc.spacing.s3 = DEFAULT_TOKENS.spacing.s3 ∧
  f.doc.spacing.s6 = DEFAULT_TOKENS.spacing.s6 ∧
  f.doc.spacing.s8 = DEFAULT_TOKENS.spacing.s8 ∧
  f.doc.spacing.s12 = DEFAULT_TOKENS.spacing.s12 ∧
  f.doc.borderRadius.sm = DEFAULT_TOKENS.borderRadius.sm ∧
  f.doc.borderRadius.lg = DEFAULT_TOKENS.borderRadius.lg ∧
  f.doc.borderRadius.full = DEFAULT_TOKENS.borderRadius.full ∧
  f.doc.shadows.sm = DEFAULT_TOKENS.shadows.sm ∧
  f.doc.shadows.lg = DEFAULT_TOKENS.shadows.lg

/-- Scenario input: `header` with a valid accent and a null background. -/
def headerResult : SectionResult :=
  { sectionName := some "header", error := none
    colors := some { background := none, text := none, heading := none,
                     accent := some "#FF0000", border := none }
    typography := none, spacing := none, borderRadius := none,
    shadow := none, notes := none }

/-- Scenario input: `hero` with a valid background and a second accent. -/
def heroResult : SectionResult :=
  { sectionName := some "hero", error := none
    colors := some { background := some "#FFFFFF", text := none, heading := none,
                     accent := some "#00FF00", border := none }
    typography := none, spacing := none, borderRadius := none,
    shadow := none, notes := none }

/-- Scenario input: `footer` failed with `error = "timeout"`. -/
def footerResult : SectionResult :=
  { sectionName := some "footer", error := some "timeout"
    colors := none, typography := none, spacing := none, borderRadius := none,
    shadow := none, notes := none }

/-- The merged document of the three-section scenario. -/
def scenarioMerged : Merged :=
  merge_section_tokens [headerResult, heroResult, footerResult]

/-- Witness input: a section whose only usable field is a valid background. -/
def bgSectionA : SectionResult :=
  { sectionName := some "header", error := none
    colors := some { background := some "#111111", text := none, heading := none,
                     accent := none, border := none }
    typography := none, spacing := none, borderRadius := none,
    shadow := none, notes := none }

/-- Witness input: a second section with a different valid background. -/
def bgSectionB : SectionResult :=
  { sectionName := some "hero", error := none
    colors := some { background := some "#222222", text := none, heading := none,
                     accent := none, border := none }
    typography := none, spacing := none, borderRadius := none,
    shadow := none, notes := none }

/-- Witness input: a whole-document result carrying the non-hex color
`"blue"` as `colors.primary`. -/
def blueWholeDoc : WholeDocTokens :=
  { colors := some { primary := some "blue", secondary := none, accent := none,
                     background := none, surface := none, border := none, text := none }
    notes := none }

/-- Counterexample input: a section whose accent is a hex color followed by
a newline, which Python's `$` anchor accepts. -/
def newlineAccentResult : SectionResult :=
  { sectionName := some "header", error := none
    colors := some { background := none, text := none, heading := none,
                     accent := some "#ff0000\n", border := none }
    typography := none, spacing := none, borderRadius := none,
    shadow := none, notes := none }

/-! ## Helper lemmas -/

theorem fillSlot_fillSlot {α : Type} (o c : Option α) :
    fillSlot (fillSlot o c) c = fillSlot o c := by
  cases o <;> cases c <;> rfl

theorem fillSlot_some {α : Type} (v : α) (c : Option α) :
    fillSlot (some v) c = some v := rfl

theorem fillSlot_none {α : Type} (c : Option α) :
    fillSlot (none : Option α) c = c := rfl

/-- Values a `candColor` candidate can carry pass `validate_hex_color`. -/
theorem candColor_valid {o : Option String} {v : String}
    (h : candColor o = some v) : validate_hex_color v = true := by
  cases o with
  | none => simp [candColor] at h
  | some w =>
    simp only [candColor] at h
    split at h
    · rename_i hw
      cases h
      exact (Bool.and_eq_true_iff.mp hw).2
    · cases h

/-- Values a `candPrimary` candidate can carry pass `validate_hex_color`. -/
theorem candPrimary_valid {o : Option String} {v : String}
    (h : candPrimary o = some v) : validate_hex_color v = true := by
  cases o with
  | none => simp [candPrimary] at h
  | some w =>
    simp only [candPrimary] at h
    split at h
    · rename_i hw
      cases h
      exact (Bool.and_eq_true_iff.mp hw).2
    · cases h

/-- A filled slot carries either the old value or the candidate. -/
theorem fillSlot_eq_some {α : Type} {o c : Option α} {v : α}
    (h : fillSlot o c = some v) : o = some v ∨ c = some v := by
  cases o with
  | some w => left; exact h
  | none => right; exact h

theorem colorsAfter_preserves_valid (r : SectionResult) {c : MergedColors}
    (h : colorsValid c) : colorsValid (colorsAfter r c) := by
  cases hrc : r.colors with
  | none => simpa [colorsAfter, hrc] using h
  | some sc =>
    intro p v hv
    cases p <;> simp only [colorsAfter, hrc, mergedColorAt] at hv
    · rcases fillSlot_eq_some hv with h1 | h1
      · exact h .primary v h1
      · exact candPrimary_valid h1
    · exact h .secondary v hv
    · rcases fillSlot_eq_some hv with h1 | h1
      · exact h .accent v h1
      · exact candColor_valid h1
    · rcases fillSlot_eq_some hv with h1 | h1
      · exact h .background v h1
      · exact candColor_valid h1
    · exact h .surface v hv
    · rcases fillSlot_eq_some hv with h1 | h1
      · exact h .border v h1
      · exact candColor_valid h1
    · rcases fillSlot_eq_some hv with h1 | h1
      · exact h .textPrimary v h1
      · exact candColor_valid h1
    · rcases fillSlot_eq_some hv with h1 | h1
      · exact h .textSecondary v h1
      · exact candColor_valid h1
    · exact h .textMuted v hv

/-- The colors component of one merge step. -/
theorem stepResult_colors (st : Merged × List String) (r : SectionResult) :
    (stepResult st r).1.colors =
      if r.error.isSome then st.1.colors else colorsAfter r st.1.colors := by
  cases h : r.error <;> simp [stepResult, h]

theorem foldl_colors_valid (results : List SectionResult) :
    ∀ st : Merged × List String, colorsValid st.1.colors →
      colorsValid ((results.foldl stepResult st).1).colors := by
  induction results with
  | nil => intro st h; exact h
  | cons r rs ih =>
    intro st h
    rw [List.foldl_cons]
    apply ih
    rw [stepResult_colors]
    cases hr : r.error.isSome
    · simpa [hr] using colorsAfter_preserves_valid r h
    · simpa [hr] using h

/-- Every color slot the section merge sets passes `validate_hex_color`. -/
theorem merged_colors_valid (results : List SectionResult) :
    colorsValid (merge_section_tokens results).colors := by
  apply foldl_colors_valid
  intro p v hv
  cases p <;> simp [initMerged, mergedColorAt] at hv

/-- Reading the defaults-merged document at a color slot is `Option.getD`
of the corresponding merged slot against the default. -/
theorem final_colorAt (m : Merged) (p : ColorPath) :
    docColorAt (merge_with_defaults m).doc.colors p =
      (mergedColorAt m.colors p).getD (docColorAt DEFAULT_TOKENS.colors p) := by
  cases p <;> rfl

theorem default_colors_validate (p : ColorPath) :
    validate_hex_color (docColorAt DEFAULT_TOKENS.colors p) = true := by
  cases p <;> decide

/-- What `validate_hex_color` accepts: `#`, six hex digits, and then either
the end of the string or one final newline (the Python `$` anchor). -/
theorem validate_hex_characterization (s : String) :
    validate_hex_color s = true ↔
      ∃ ds : List Char, ds.length = 6 ∧ ds.all isPyHexDigit = true ∧
        (s.data = '#' :: ds ∨ s.data = '#' :: (ds ++ ['\n'])) := by
  cases h : s.data with
  | nil => simp [validate_hex_color, pyMatchHex, h]
  | cons c rest =>
    simp only [validate_hex_color, pyMatchHex, h, Bool.and_eq_true, Bool.or_eq_true,
      beq_iff_eq, List.cons.injEq]
    constructor
    · rintro ⟨⟨hc, hlen, hall⟩, hdrop⟩
      refine ⟨rest.take 6, hlen, hall, ?_⟩
      rcases hdrop with hd | hd
      · left
        refine ⟨hc, ?_⟩
        conv_lhs => rw [← List.take_append_drop 6 rest]
        rw [hd, List.append_nil]
      · right
        refine ⟨hc, ?_⟩
        conv_lhs => rw [← List.take_append_drop 6 rest]
        rw [hd]
    · rintro ⟨ds, hlen, hall, hcase⟩
      rcases hcase with ⟨hc, hr⟩ | ⟨hc, hr⟩
      · subst hr
        refine ⟨⟨hc, ?_, ?_⟩, Or.inl ?_⟩
        · rw [← hlen, List.take_length]
        · rw [← hlen, List.take_length]; exact hall
        · rw [← hlen, List.drop_length]
      · subst hr
        refine ⟨⟨hc, ?_, ?_⟩, Or.inr ?_⟩
        · rw [← hlen, List.take_left]
        · rw [← hlen, List.take_left]; exact hall
        · rw [← hlen, List.drop_left]

/-- What the strict reading of the pattern accepts. -/
theorem matches_hex_characterization (s : String) :
    matches_hex_exactly s = true ↔
      ∃ ds : List Char, ds.length = 6 ∧ ds.all isPyHexDigit = true ∧
        s.data = '#' :: ds := by
  cases h : s.data with
  | nil => simp [matches_hex_exactly, h]
  | cons c rest =>
    simp only [matches_hex_exactly, h, Bool.and_eq_true, beq_iff_eq, List.cons.injEq]
    constructor
    · rintro ⟨⟨hc, hlen⟩, hall⟩
      exact ⟨rest, hlen, hall, hc, rfl⟩
    · rintro ⟨ds, hlen, hall, hc, hr⟩
      subst hr
      exact ⟨⟨hc, hlen⟩, hall⟩

/-- Processing one size key is one (or zero) steps of the reference
bucket-filling recursion. -/
theorem processSizeKey_spec (b : Bool) (o : Option String) (σ : SizeState) :
    processSizeKey b o σ = specFillSizes σ (sizeEventOf b o) := by
  cases o with
  | none => rfl
  | some s =>
    by_cases ht : ¬s = "" ∧ ¬s = "null"
    · by_cases hs : s ∈ σ.seen
      · simp [processSizeKey, sizeEventOf, specFillSizes, ht, hs]
      · cases b <;> simp [processSizeKey, sizeEventOf, specFillSizes, ht, hs]
    · simp [processSizeKey, sizeEventOf, specFillSizes, ht]

theorem specFillSizes_append (σ : SizeState) (es1 es2 : List (Bool × String)) :
    specFillSizes σ (es1 ++ es2) = specFillSizes (specFillSizes σ es1) es2 := by
  induction es1 generalizing σ with
  | nil => rfl
  | cons e es ih =>
    obtain ⟨b, s⟩ := e
    by_cases hs : s ∈ σ.seen
    · simp [specFillSizes, hs, ih]
    · cases b <;> simp [specFillSizes, hs, ih]

theorem sizesAfter_spec (r : SectionResult) (σ : SizeState) (h : r.error = none) :
    sizesAfter r σ = specFillSizes σ (sizeEvents r) := by
  cases ht : r.typography with
  | none => simp [sizesAfter, sizeEvents, h, ht, specFillSizes]
  | some t =>
    simp only [sizesAfter, sizeEvents, h, ht]
    rw [specFillSizes_append, processSizeKey_spec, processSizeKey_spec]

theorem stepResult_sizes (st : Merged × List String) (r : SectionResult) :
    sizesStateOf (stepResult st r) = specFillSizes (sizesStateOf st) (sizeEvents r) := by
  cases h : r.error with
  | some e => simp [stepResult, h, sizeEvents, specFillSizes, sizesStateOf]
  | none =>
    have h1 : sizesStateOf (stepResult st r) = sizesAfter r (sizesStateOf st) := by
      simp [stepResult, h, sizesStateOf]
    rw [h1, sizesAfter_spec r _ h]

theorem foldl_sizes_spec (results : List SectionResult) :
    ∀ st : Merged × List String,
      sizesStateOf (results.foldl stepResult st) =
        specFillSizes (sizesStateOf st) ((results.map sizeEvents).flatten) := by
  induction results with
  | nil => intro st; rfl
  | cons r rs ih =>
    intro st
    rw [List.foldl_cons, ih]
    have hj : ((r :: rs).map sizeEvents).flatten =
        sizeEvents r ++ (rs.map sizeEvents).flatten := by simp
    rw [hj, specFillSizes_append, stepResult_sizes]

/-- One spacing entry with a usable value is routed exactly by its key's
class. -/
theorem spacingStep_classify (sp : Option String × Option String) (k v : String)
    (hv : ¬v = "" ∧ ¬v = "null") :
    spacingStep sp (k, v) =
      match classify_spacing_key k with
      | .scale16 => (fillSlot sp.1 (some v), sp.2)
      | .scale4 => (sp.1, fillSlot sp.2 (some v))
      | .ignored => sp := by
  by_cases h16 : strContainsSub k.toLower "section" = true ∨ strContainsSub k.toLower "container" = true
  · simp [spacingStep, classify_spacing_key, hv, h16]
  · by_cases h4 : strContainsSub k.toLower "gap" = true
    · simp [spacingStep, classify_spacing_key, hv, h16, h4]
    · simp [spacingStep, classify_spacing_key, hv, h16, h4]

theorem foldl_spacingStep_spec (entries : List (String × String)) :
    ∀ sp : Option String × Option String,
      entries.foldl spacingStep sp =
        specMergeSpacing sp (entries.filter (fun kv => kv.2 ≠ "" && kv.2 ≠ "null")) := by
  induction entries with
  | nil => intro sp; rfl
  | cons kv es ih =>
    intro sp
    obtain ⟨k, v⟩ := kv
    rw [List.foldl_cons, ih, List.filter_cons]
    by_cases hv : ¬v = "" ∧ ¬v = "null"
    · rw [if_pos (by simpa using hv)]
      rw [spacingStep_classify sp k v hv]
      cases hcl : classify_spacing_key k <;> simp [specMergeSpacing, hcl]
    · rw [if_neg (by simpa using hv)]
      have hstep : spacingStep sp (k, v) = sp := by
        simp only [spacingStep]
        rw [if_neg (by simpa using hv)]
      rw [hstep]

theorem spacingAfter_spec (r : SectionResult) (sp : Option String × Option String)
    (h : r.error = none) :
    spacingAfter r sp = specMergeSpacing sp (spacingEvents r) := by
  cases hs : r.spacing with
  | none => simp [spacingAfter, spacingEvents, h, hs, specMergeSpacing]
  | some entries =>
    simp only [spacingAfter, spacingEvents, h, hs]
    exact foldl_spacingStep_spec entries sp

theorem specMergeSpacing_append (sp : Option String × Option String)
    (es1 es2 : List (String × String)) :
    specMergeSpacing sp (es1 ++ es2) =
      specMergeSpacing (specMergeSpacing sp es1) es2 := by
  induction es1 generalizing sp with
  | nil => rfl
  | cons kv es ih =>
    obtain ⟨k, v⟩ := kv
    cases hcl : classify_spacing_key k <;> simp [specMergeSpacing, hcl, ih]

theorem stepResult_spacing (st : Merged × List String) (r : SectionResult) :
    spacingPairOf (stepResult st r) =
      specMergeSpacing (spacingPairOf st) (spacingEvents r) := by
  cases h : r.error with
  | some e => simp [stepResult, h, spacingEvents, specMergeSpacing, spacingPairOf]
  | none =>
    have h1 : spacingPairOf (stepResult st r) = spacingAfter r (spacingPairOf st) := by
      simp [stepResult, h, spacingPairOf, spacingAfter]
    rw [h1, spacingAfter_spec r _ h]

theorem foldl_spacing_spec (results : List SectionResult) :
    ∀ st : Merged × List String,
      spacingPairOf (results.foldl stepResult st) =
        specMergeSpacing (spacingPairOf st) ((results.map spacingEvents).flatten) := by
  induction results with
  | nil => intro st; rfl
  | cons r rs ih =>
    intro st
    rw [List.foldl_cons, ih]
    have hj : ((r :: rs).map spacingEvents).flatten =
        spacingEvents r ++ (rs.map spacingEvents).flatten := by simp
    rw [hj, specMergeSpacing_append, stepResult_spacing]

/-- Re-merging the very same result changes no color slot. -/
theorem colorsAfter_idem (r : SectionResult) (c : MergedColors) :
    colorsAfter r (colorsAfter r c) = colorsAfter r c := by
  cases h : r.colors with
  | none => simp [colorsAfter, h]
  | some sc => simp [colorsAfter, h, fillSlot_fillSlot]

/-- In a two-result merge the first result's valid background wins,
whatever the second result carries. -/
theorem merge_two_background_first (X Y : SectionResult) (v : String)
    (h : suppliesValidBackground X v) :
    (merge_section_tokens [X, Y]).colors.background = some v := by
  obtain ⟨hXe, sx, hxc, hxb, hxv⟩ := h
  have hxv' : ¬v = "" ∧ ¬v = "null" ∧ validate_hex_color v = true := by
    simpa [and_assoc] using hxv
  show (stepResult (stepResult (initMerged 2, []) X) Y).1.colors.background = some v
  have h1 : (stepResult (initMerged 2, []) X).1.colors.background = some v := by
    rw [stepResult_colors]
    simp [hXe, colorsAfter, hxc, candColor, hxb, hxv'.1, hxv'.2.1, hxv'.2.2,
      initMerged, fillSlot]
  rw [stepResult_colors]
  cases hY : Y.error.isSome
  · simp only [hY, Bool.false_eq_true, if_false]
    cases hyc : Y.colors with
    | none => simpa [colorsAfter, hyc] using h1
    | some sy => simp [colorsAfter, hyc, h1, fillSlot]
  · simpa [hY] using h1

/-- A sequence of failed results only appends one failure note each. -/
theorem foldl_all_error (results : List SectionResult)
    (h : ∀ r ∈ results, r.error.isSome) :
    ∀ st : Merged × List String,
      results.foldl stepResult st =
        ({ st.1 with notes := st.1.notes ++ results.map failNoteOf }, st.2) := by
  induction results with
  | nil => intro st; simp
  | cons r rs ih =>
    intro st
    have hr : r.error.isSome := h r (by simp)
    rw [List.foldl_cons]
    have hstep : stepResult st r = ({ st.1 with notes := st.1.notes ++ [failNoteOf r] }, st.2) := by
      cases he : r.error with
      | none => rw [he] at hr; simp at hr
      | some e => simp [stepResult, he]
    rw [hstep, ih (fun x hx => h x (by simp [hx]))]
    simp

/-- The function `merge_with_defaults` reads every writable string slot as `Option.getD`
of the merged slot against the default. -/
theorem final_strAt (m : Merged) (slot : StrSlot) :
    docStrAt (merge_with_defaults m).doc slot =
      (mergedStrAt m slot).getD (docStrAt DEFAULT_TOKENS slot) := by
  cases slot <;> rfl

/-- The `is_valid` flag of `validate_tokens` is emptiness of its errors. -/
theorem validate_tokens_fst (t : WholeDocTokens) :
    (validate_tokens t).1 = (validate_tokens t).2.isEmpty := rfl

/-- The routine `validate_tokens` reports every present color value that fails the hex
check, under its dotted path name. -/
theorem validate_tokens_mem (t : WholeDocTokens) (p : ColorPath) (v : String)
    (hv : wholeColorAt t p = some v) (hval : validate_hex_color v = false) :
    ("Invalid hex color: colors." ++ colorPathName p ++ " = " ++ v) ∈ (validate_tokens t).2 := by
  cases ht : t.colors with
  | none => simp [wholeColorAt, ht] at hv
  | some c =>
    cases p
    · simp only [wholeColorAt, ht] at hv
      simp [validate_tokens, ht, colorErrorAt, colorPathName, hv, hval]
    · simp only [wholeColorAt, ht] at hv
      simp [validate_tokens, ht, colorErrorAt, colorPathName, hv, hval]
    · simp only [wholeColorAt, ht] at hv
      simp [validate_tokens, ht, colorErrorAt, colorPathName, hv, hval]
    · simp only [wholeColorAt, ht] at hv
      simp [validate_tokens, ht, colorErrorAt, colorPathName, hv, hval]
    · simp only [wholeColorAt, ht] at hv
      simp [validate_tokens, ht, colorErrorAt, colorPathName, hv, hval]
    · simp only [wholeColorAt, ht] at hv
      simp [validate_tokens, ht, colorErrorAt, colorPathName, hv, hval]
    · simp only [wholeColorAt, ht, Option.bind_eq_some] at hv
      obtain ⟨tc, htc, hv⟩ := hv
      simp [validate_tokens, ht, htc, colorErrorAt, colorPathName, hv, hval]
    · simp only [wholeColorAt, ht, Option.bind_eq_some] at hv
      obtain ⟨tc, htc, hv⟩ := hv
      simp [validate_tokens, ht, htc, colorErrorAt, colorPathName, hv, hval]
    · simp only [wholeColorAt, ht, Option.bind_eq_some] at hv
      obtain ⟨tc, htc, hv⟩ := hv
      simp [validate_tokens, ht, htc, colorErrorAt, colorPathName, hv, hval]

/-- The whole-document defaults merge keeps every present color value in
place, valid or not. -/
theorem finalize_keeps_color (t : WholeDocTokens) (p : ColorPath) (v : String)
    (hv : wholeColorAt t p = some v) :
    docColorAt (finalize_whole_doc t).colors p = v := by
  cases ht : t.colors with
  | none => simp [wholeColorAt, ht] at hv
  | some c =>
    cases p
    · simp only [wholeColorAt, ht] at hv
      simp [finalize_whole_doc, wholeColorsMerged, docColorAt, ht, hv]
    · simp only [wholeColorAt, ht] at hv
      simp [finalize_whole_doc, wholeColorsMerged, docColorAt, ht, hv]
    · simp only [wholeColorAt, ht] at hv
      simp [finalize_whole_doc, wholeColorsMerged, docColorAt, ht, hv]
    · simp only [wholeColorAt, ht] at hv
      simp [finalize_whole_doc, wholeColorsMerged, docColorAt, ht, hv]
    · simp only [wholeColorAt, ht] at hv
      simp [finalize_whole_doc, wholeColorsMerged, docColorAt, ht, hv]
    · simp only [wholeColorAt, ht] at hv
      simp [finalize_whole_doc, wholeColorsMerged, docColorAt, ht, hv]
    · simp only [wholeColorAt, ht, Option.bind_eq_some] at hv
      obtain ⟨tc, htc, hv⟩ := hv
      simp [finalize_whole_doc, wholeColorsMerged, docColorAt, ht, htc, hv]
    · simp only [wholeColorAt, ht, Option.bind_eq_some] at hv
      obtain ⟨tc, htc, hv⟩ := hv
      simp [finalize_whole_doc, wholeColorsMerged, docColorAt, ht, htc, hv]
    · simp only [wholeColorAt, ht, Option.bind_eq_some] at hv
      obtain ⟨tc, htc, hv⟩ := hv
      simp [finalize_whole_doc, wholeColorsMerged, docColorAt, ht, htc, hv]

/-- When validation fails, the output notes are the input notes (empty if
absent) followed by the error strings. -/
theorem finalize_notes_append (t : WholeDocTokens)
    (h : (validate_tokens t).2 ≠ []) :
    (finalize_whole_doc t).notes = t.notes.getD [] ++ (validate_tokens t).2 := by
  have h1 : (validate_tokens t).1 = false := by
    rw [validate_tokens_fst]
    cases hl : (validate_tokens t).2 with
    | nil => exact absurd hl h
    | cons a l => rfl
  simp [finalize_whole_doc, h1]

/-! ## Claim theorems -/

/-- C1 (amended): every canonical color value produced by
`merge_section_tokens` followed by `merge_with_defaults` passes the
implementation's hex check `validate_hex_color` — i.e. it matches
`^#[0-9A-Fa-f]{6}$` up to an optional single trailing newline — and a
color value failing that check is never written to the canonical
document. -/
theorem C1_canonical_colors_pass_validator (results : List SectionResult) (p : ColorPath) :
    validate_hex_color
      (docColorAt (merge_with_defaults (merge_section_tokens results)).doc.colors p) = true := by
  rw [final_colorAt]
  cases h : mergedColorAt (merge_section_tokens results).colors p with
  | none => simpa using default_colors_validate p
  | some v => simpa using merged_colors_valid results p v h

/-- C1 counterexample: a section accent `"#ff0000\n"` passes the code's
validator, is written, and survives into the canonical document, yet it
does not match `^#[0-9A-Fa-f]{6}$` read strictly — so the claimed
invariant fails as stated at this concrete input. -/
theorem C1_strict_regex_counterexample :
    docColorAt (merge_with_defaults
        (merge_section_tokens [newlineAccentResult])).doc.colors ColorPath.accent =
      "#ff0000\n" ∧
    matches_hex_exactly "#ff0000\n" = false := by
  constructor
  · decide
  · decide

/-- C2 (amended): `validate_hex_color s` is true iff `s` matches
`^#[0-9A-Fa-f]{6}$` exactly, or `s` is such an exact match followed by one
final newline (Python's `$` anchor also matches just before a trailing
newline); 3-digit forms, strings missing `#`, and strings with 7 or more
digits are still rejected. -/
theorem C2_validator_characterization (s : String) :
    validate_hex_color s = true ↔
      (matches_hex_exactly s = true ∨
       ∃ ds : List Char, s.data = ds ++ ['\n'] ∧ matches_hex_exactly (String.mk ds) = true) := by
  rw [validate_hex_characterization]
  constructor
  · rintro ⟨ds, hlen, hall, hcase | hcase⟩
    · exact Or.inl ((matches_hex_characterization s).mpr ⟨ds, hlen, hall, hcase⟩)
    · refine Or.inr ⟨'#' :: ds, ?_, (matches_hex_characterization _).mpr ⟨ds, hlen, hall, rfl⟩⟩
      rw [hcase]; rfl
  · rintro (hm | ⟨ds, hdata, hm⟩)
    · obtain ⟨ds, hlen, hall, hd⟩ := (matches_hex_characterization s).mp hm
      exact ⟨ds, hlen, hall, Or.inl hd⟩
    · obtain ⟨ds2, hlen, hall, hd2⟩ := (matches_hex_characterization _).mp hm
      refine ⟨ds2, hlen, hall, Or.inr ?_⟩
      rw [hdata]
      have hds : ds = '#' :: ds2 := hd2
      rw [hds]; rfl

/-- C2 counterexample: `"#abcdef\n"` is accepted by `validate_hex_color`
although it does not consist of `#` and six hex digits and nothing else —
the claimed exact-match equivalence fails at this concrete input. -/
theorem C2_trailing_newline_counterexample :
    validate_hex_color "#abcdef\n" = true ∧ matches_hex_exactly "#abcdef\n" = false := by
  constructor
  · decide
  · decide

/-- C3 (confirmed): `build_structure_prompt` selects exactly one context
tier by the fixed precedence — hierarchy together with dimensions yields
the tree-plus-measurement tier regardless of markup/stylesheet; dimensions
without hierarchy yields the measurement tier; with no dimensions, markup
and stylesheet both present yield the markup tier; every other combination
(markup without stylesheet included) yields the screenshot-only tier. -/
theorem C3_tier_precedence (h d m s : Bool) :
    (h = true → d = true →
      build_structure_prompt_tier h d m s = ContextTier.hierarchyDimensions) ∧
    (h = false → d = true →
      build_structure_prompt_tier h d m s = ContextTier.dimensionsOnly) ∧
    (d = false → m = true → s = true →
      build_structure_prompt_tier h d m s = ContextTier.markup) ∧
    (d = false → (m && s) = false →
      build_structure_prompt_tier h d m s = ContextTier.screenshotOnly) := by
  cases h <;> cases d <;> cases m <;> cases s <;> simp [build_structure_prompt_tier]

/-- C3 witness: one concrete input per tier of the precedence, each
discharged through `C3_tier_precedence`. -/
theorem C3_tier_precedence_witness :
    build_structure_prompt_tier true true true true = ContextTier.hierarchyDimensions ∧
    build_structure_prompt_tier false true true true = ContextTier.dimensionsOnly ∧
    build_structure_prompt_tier false false true true = ContextTier.markup ∧
    build_structure_prompt_tier false false true false = ContextTier.screenshotOnly :=
  ⟨(C3_tier_precedence true true true true).1 rfl rfl,
   (C3_tier_precedence false true true true).2.1 rfl rfl,
   (C3_tier_precedence false false true true).2.2.1 rfl rfl rfl,
   (C3_tier_precedence false false true false).2.2.2 rfl rfl⟩

/-- C4 (confirmed): merging `[header: accent=#FF0000, background=null]`,
`[hero: background=#FFFFFF, accent=#00FF00]`, `[footer: error="timeout"]`
yields accent `#FF0000`, background `#FFFFFF`, primary `#FF0000` (inferred
from the first accent), `_sections = ["header","hero"]`,
`_sectionCount = 3`, and exactly one note, mentioning `footer` and
`timeout`. -/
theorem C4_three_section_scenario :
    scenarioMerged.colors.accent = some "#FF0000" ∧
    scenarioMerged.colors.background = some "#FFFFFF" ∧
    scenarioMerged.colors.primary = some "#FF0000" ∧
    scenarioMerged.sections = ["header", "hero"] ∧
    scenarioMerged.sectionCount = 3 ∧
    scenarioMerged.notes = ["Section footer failed: timeout"] ∧
    hasInfix "footer".data "Section footer failed: timeout".data = true ∧
    hasInfix "timeout".data "Section footer failed: timeout".data = true := by
  decide

/-- C5 (confirmed): the color merge is first-wins — merging `[A, A]` yields
the same canonical colors as `[A]`, and when `A` and `B` both supply a
valid background, `[A, B]` keeps A's value while `[B, A]` keeps B's. -/
theorem C5_first_wins :
    (∀ A : SectionResult,
      (merge_section_tokens [A, A]).colors = (merge_section_tokens [A]).colors) ∧
    (∀ A B v w, suppliesValidBackground A v → suppliesValidBackground B w →
      (merge_section_tokens [A, B]).colors.background = some v ∧
      (merge_section_tokens [B, A]).colors.background = some w) := by
  constructor
  · intro A
    show (stepResult (stepResult (initMerged 2, []) A) A).1.colors =
         (stepResult (initMerged 1, []) A).1.colors
    rw [stepResult_colors, stepResult_colors, stepResult_colors]
    cases hA : A.error.isSome
    · simp only [hA, Bool.false_eq_true, if_false]
      exact colorsAfter_idem A (initMerged 2).colors
    · simp [hA, initMerged]
  · intro A B v w hA hB
    exact ⟨merge_two_background_first A B v hA, merge_two_background_first B A w hB⟩

/-- C5 witness: two concrete sections with distinct valid backgrounds,
merged in both orders through `C5_first_wins`. -/
theorem C5_first_wins_witness :
    (merge_section_tokens [bgSectionA, bgSectionB]).colors.background = some "#111111" ∧
    (merge_section_tokens [bgSectionB, bgSectionA]).colors.background = some "#222222" :=
  C5_first_wins.2 bgSectionA bgSectionB "#111111" "#222222"
    ⟨rfl, { background := some "#111111", text := none, heading := none,
            accent := none, border := none }, rfl, rfl, by decide⟩
    ⟨rfl, { background := some "#222222", text := none, heading := none,
            accent := none, border := none }, rfl, rfl, by decide⟩

/-- C6 (amended): for the empty sequence and for sequences in which every
result is failed, the returned document equals the Defaults Document on
every token field, with its `notes` field replaced by the accumulated
failure notes — one per failed result, in order (the default sentinel note
is not retained). -/
theorem C6_defaults_with_failure_notes (results : List SectionResult)
    (h : ∀ r ∈ results, r.error.isSome) :
    merge_with_defaults (merge_section_tokens results) =
      { doc := { DEFAULT_TOKENS with notes := results.map failNoteOf }
        sections := []
        sectionCount := results.length } := by
  unfold merge_section_tokens mergeState
  rw [foldl_all_error results h]
  simp [merge_with_defaults, initMerged]

/-- C6 counterexample: for the empty input the returned document is *not*
exactly the Defaults Document — its `notes` field is the empty list of
accumulated failure notes, while the Defaults Document carries its
sentinel note. -/
theorem C6_empty_input_counterexample :
    (merge_with_defaults (merge_section_tokens [])).doc.notes = [] ∧
    DEFAULT_TOKENS.notes =
      ["Using default tokens - extraction failed or was not performed"] ∧
    (merge_with_defaults (merge_section_tokens [])).doc.notes ≠ DEFAULT_TOKENS.notes := by
  refine ⟨rfl, rfl, ?_⟩
  decide

/-- C6 witness: one all-failed input, discharged through
`C6_defaults_with_failure_notes`. -/
theorem C6_defaults_with_failure_notes_witness :
    merge_with_defaults (merge_section_tokens [footerResult]) =
      { doc := { DEFAULT_TOKENS with notes := [footerResult].map failNoteOf }
        sections := []
        sectionCount := 1 } :=
  C6_defaults_with_failure_notes [footerResult] (by decide)

/-- C7 (confirmed): the defaults merge never overwrites a value the
section-merge phase set — every set slot survives verbatim — and every
slot untouched by all inputs (including the slots no input can ever touch)
equals the Defaults Document's value in the output. -/
theorem C7_defaults_never_overwrite (results : List SectionResult) (slot : StrSlot) :
    strSlotRespected (merge_section_tokens results)
        (merge_with_defaults (merge_section_tokens results)) slot ∧
    weightsRespected (merge_section_tokens results)
        (merge_with_defaults (merge_section_tokens results)) ∧
    untouchedFieldsDefault (merge_with_defaults (merge_section_tokens results)) := by
  refine ⟨⟨?_, ?_⟩, ⟨⟨?_, ?_⟩, ⟨?_, ?_⟩, ⟨?_, ?_⟩, ⟨?_, ?_⟩⟩, ?_⟩
  · intro v hv
    rw [final_strAt, hv]
    rfl
  · intro h0
    rw [final_strAt, h0]
    rfl
  · intro i hv; simp [merge_with_defaults, hv]
  · intro h0; simp [merge_with_defaults, h0]
  · intro i hv; simp [merge_with_defaults, hv]
  · intro h0; simp [merge_with_defaults, h0]
  · intro i hv; simp [merge_with_defaults, hv]
  · intro h0; simp [merge_with_defaults, h0]
  · intro i hv; simp [merge_with_defaults, hv]
  · intro h0; simp [merge_with_defaults, h0]
  · exact ⟨rfl, rfl, rfl, rfl, rfl, rfl, rfl, rfl, rfl,
           rfl, rfl, rfl, rfl, rfl, rfl, rfl, rfl, rfl⟩

/-- C7 witness: the empty input leaves `colors.primary` unset, and the
output equals the default there, through `C7_defaults_never_overwrite`. -/
theorem C7_defaults_never_overwrite_witness :
    docStrAt (merge_with_defaults (merge_section_tokens [])).doc StrSlot.cPrimary =
      docStrAt DEFAULT_TOKENS StrSlot.cPrimary :=
  ((C7_defaults_never_overwrite [] StrSlot.cPrimary).1).2 rfl

/-- C8 (confirmed): the validation asymmetry — in the whole-document path a
present color value failing the hex check is kept in place in the returned
document and its `Invalid hex color` note is appended, while the
section-merge path never writes a color value that fails
`validate_hex_color`. -/
theorem C8_validation_asymmetry :
    (∀ (t : WholeDocTokens) (p : ColorPath) (v : String),
        wholeColorAt t p = some v → validate_hex_color v = false →
        docColorAt (finalize_whole_doc t).colors p = v ∧
        ("Invalid hex color: colors." ++ colorPathName p ++ " = " ++ v) ∈
          (finalize_whole_doc t).notes) ∧
    (∀ (results : List SectionResult) (p : ColorPath) (v : String),
        mergedColorAt (merge_section_tokens results).colors p = some v →
        validate_hex_color v = true) := by
  constructor
  · intro t p v hv hval
    refine ⟨finalize_keeps_color t p v hv, ?_⟩
    have hmem := validate_tokens_mem t p v hv hval
    rw [finalize_notes_append t (List.ne_nil_of_mem hmem)]
    exact List.mem_append_right _ hmem
  · intro results p v hv
    exact merged_colors_valid results p v hv

/-- C8 witness: `colors.primary = "blue"` is kept in place with a note in
the whole-document path, and a valid section accent shows the section path
only holds validated values — both through `C8_validation_asymmetry`. -/
theorem C8_validation_asymmetry_witness :
    (docColorAt (finalize_whole_doc blueWholeDoc).colors ColorPath.primary = "blue" ∧
     ("Invalid hex color: colors." ++ colorPathName ColorPath.primary ++ " = " ++ "blue") ∈
       (finalize_whole_doc blueWholeDoc).notes) ∧
    validate_hex_color "#FF0000" = true :=
  ⟨C8_validation_asymmetry.1 blueWholeDoc ColorPath.primary "blue" rfl (by decide),
   C8_validation_asymmetry.2 [headerResult] ColorPath.accent "#FF0000" (by decide)⟩

/-- C9 (confirmed): across one run, font sizes are merged exactly by the
reference recursion with a single global deduplication set shared between
`headingSize` and `bodySize` — a heading-labelled size fills bucket `4xl`
only (first unseen occurrence, while unset), a body-labelled size fills
bucket `base` only, and a size string already seen under either labelling
is never reprocessed. -/
theorem C9_font_size_dedup (results : List SectionResult) :
    (merge_section_tokens results).typo.fs4xl =
        (specFillSizes ⟨none, none, []⟩ ((results.map sizeEvents).flatten)).fs4xl ∧
    (merge_section_tokens results).typo.fsBase =
        (specFillSizes ⟨none, none, []⟩ ((results.map sizeEvents).flatten)).fsBase ∧
    (mergeState results).2 =
        (specFillSizes ⟨none, none, []⟩ ((results.map sizeEvents).flatten)).seen := by
  have h := foldl_sizes_spec results (initMerged results.length, [])
  exact ⟨congrArg SizeState.fs4xl h, congrArg SizeState.fsBase h,
         congrArg SizeState.seen h⟩

/-- C10 (confirmed): the spacing merge routes every usable spacing entry by
its key — keys containing `section`/`container` (case-insensitively) fill
scale key `16` at first occurrence, otherwise keys containing `gap` fill
scale key `4` at first occurrence, and every other key is ignored without
error — exactly the reference recursion over the classifier. -/
theorem C10_spacing_key_mapping (results : List SectionResult) :
    ((merge_section_tokens results).spacing16, (merge_section_tokens results).spacing4) =
      specMergeSpacing (none, none) ((results.map spacingEvents).flatten) :=
  foldl_spacing_spec results (initMerged results.length, [])
